import Mathlib

/-!
Verification development for the DCM2VDB DICOM Series Resolver and
Volumetric Reconstruction Engine.

The definitions below are a shallow embedding, translated from the Python
sources of the repository:
  * `src/extension/patient.py`        — `SeriesInfo`, `Patient`, JSON round trip
  * `src/extension/dicom_io.py`       — classification, 4D analysis, series
                                        organization, patient loading
  * `src/extension/volume_creation.py`— volume assembly, clamping, normalization
  * `src/extension/volume.py`         — legacy assembly path and temp cleanup
  * `src/extension/measurements.py`   — tissue-volume estimation
  * `src/extension/constants.py`      — numeric constants

Machine floats are modelled by exact rationals (`ℚ`), Python `int` by `ℤ`,
JSON documents by an explicit inductive `Json` (Python's `json.dumps` /
`json.loads` round-trips each JSON value, with `int` and `float` kept
distinct, and tuples serialized as arrays).
-/

/-- A JSON value, as produced by Python's `json` module.  Python `int` and
`float` are distinct JSON-level number flavours that round-trip through
`json.dumps`/`json.loads`, so they are kept as separate constructors. -/
inductive Json where
  | null : Json
  | bool (b : Bool) : Json
  | int (n : ℤ) : Json
  | num (q : ℚ) : Json
  | str (s : String) : Json
  | arr (xs : List Json) : Json
  | obj (kvs : List (String × Json)) : Json

/-- Lookup of a key in a JSON object (Python `dict` access / `in` test). -/
def jget : List (String × Json) → String → Option Json
  | [], _ => none
  | (k, v) :: rest, key => if k = key then some v else jget rest key

/-- Decode a JSON string. -/
def Json.asStr : Json → Option String
  | .str s => some s
  | _ => none

/-- Decode a JSON integer. -/
def Json.asInt : Json → Option ℤ
  | .int n => some n
  | _ => none

/-- Decode a JSON float. -/
def Json.asNum : Json → Option ℚ
  | .num q => some q
  | _ => none

/-- Decode a JSON boolean. -/
def Json.asBool : Json → Option Bool
  | .bool b => some b
  | _ => none

/-- Decode an optional JSON float (`None` serializes as `null`). -/
def Json.asOptNum : Json → Option (Option ℚ)
  | .null => some none
  | .num q => some (some q)
  | _ => none

/-- Encode an optional float. -/
def optNumJson : Option ℚ → Json
  | none => .null
  | some q => .num q

/-- Sequence a fallible map over a list (a Python list comprehension in
which any element failure aborts the whole comprehension). -/
def seqOpt {α β : Type} (f : α → Option β) : List α → Option (List β)
  | [] => some []
  | x :: xs => do
    let y ← f x
    let ys ← seqOpt f xs
    some (y :: ys)

/-- Decode a JSON array of strings. -/
def decodeStrList : Json → Option (List String)
  | .arr xs => seqOpt Json.asStr xs
  | _ => none

/-- Decode a JSON array of floats. -/
def decodeNumList : Json → Option (List ℚ)
  | .arr xs => seqOpt Json.asNum xs
  | _ => none

/-- Decode a 2-element JSON array into a pair (Python `tuple(list)`). -/
def decodePair : Json → Option (ℚ × ℚ)
  | .arr [.num a, .num b] => some (a, b)
  | _ => none

/-- Decode a 3-element JSON array into a triple. -/
def decodeTriple : Json → Option (ℚ × ℚ × ℚ)
  | .arr [.num a, .num b, .num c] => some (a, b, c)
  | _ => none

/-- Decode a 6-element JSON array into a 6-tuple. -/
def decodeSix : Json → Option (ℚ × ℚ × ℚ × ℚ × ℚ × ℚ)
  | .arr [.num a, .num b, .num c, .num d, .num e, .num f] => some (a, b, c, d, e, f)
  | _ => none

/-- Decode one entry of a float-valued JSON object. -/
def decodeNumEntry (kv : String × Json) : Option (String × ℚ) :=
  (Json.asNum kv.2).map (fun q => (kv.1, q))

/-- Decode a JSON object with float values (the `tissue_volumes` dict). -/
def decodeNumMap : Json → Option (List (String × ℚ))
  | .obj kvs => seqOpt decodeNumEntry kvs
  | _ => none

/-- Decode one entry of a string-valued JSON object. -/
def decodeStrEntry (kv : String × Json) : Option (String × String) :=
  (Json.asStr kv.2).map (fun s => (kv.1, s))

/-- Decode a JSON object with string values (`volume_objects` / `mesh_objects`). -/
def decodeStrMap : Json → Option (List (String × String))
  | .obj kvs => seqOpt decodeStrEntry kvs
  | _ => none

/-- `src/extension/patient.py` lines 18-64: the `SeriesInfo` dataclass.
Python dicts keep insertion order, so `tissue_volumes` is an association
list; tuples are Lean products.  Field declaration order matches the
source. -/
structure SeriesInfo where
  series_instance_uid : String
  series_number : ℤ := 0
  series_description : String := ""
  modality : String := ""
  image_type : List String := []
  rows : ℤ := 0
  cols : ℤ := 0
  slice_count : ℤ := 0
  pixel_spacing : ℚ × ℚ := (1, 1)
  slice_thickness : ℚ := 1
  image_position_patient : ℚ × ℚ × ℚ := (0, 0, 0)
  image_orientation_patient : ℚ × ℚ × ℚ × ℚ × ℚ × ℚ := (1, 0, 0, 0, 1, 0)
  frame_of_reference_uid : String := ""
  window_center : Option ℚ := none
  window_width : Option ℚ := none
  file_paths : List String := []
  slice_locations : List ℚ := []
  is_loaded : Bool := false
  is_visible : Bool := false
  is_selected : Bool := true
  show_volume : Bool := true
  show_bone : Bool := false
  tissue_volumes : List (String × ℚ) := []
deriving DecidableEq

/-- The field names accepted by the `SeriesInfo` dataclass constructor
(`patient.py` lines 18-64), in declaration order. -/
def seriesInfoFieldNames : List String :=
  ["series_instance_uid", "series_number", "series_description", "modality",
   "image_type", "rows", "cols", "slice_count", "pixel_spacing",
   "slice_thickness", "image_position_patient", "image_orientation_patient",
   "frame_of_reference_uid", "window_center", "window_width", "file_paths",
   "slice_locations", "is_loaded", "is_visible", "is_selected", "show_volume",
   "show_bone", "tissue_volumes"]

/-- `patient.py` line 66-68: `SeriesInfo.to_dict` via `dataclasses.asdict`,
composed with JSON encoding (tuples become arrays, the nested dict becomes
an object). -/
def SeriesInfo.to_dict (s : SeriesInfo) : List (String × Json) :=
  [("series_instance_uid", .str s.series_instance_uid),
   ("series_number", .int s.series_number),
   ("series_description", .str s.series_description),
   ("modality", .str s.modality),
   ("image_type", .arr (s.image_type.map Json.str)),
   ("rows", .int s.rows),
   ("cols", .int s.cols),
   ("slice_count", .int s.slice_count),
   ("pixel_spacing", .arr [.num s.pixel_spacing.1, .num s.pixel_spacing.2]),
   ("slice_thickness", .num s.slice_thickness),
   ("image_position_patient",
     .arr [.num s.image_position_patient.1, .num s.image_position_patient.2.1,
           .num s.image_position_patient.2.2]),
   ("image_orientation_patient",
     .arr [.num s.image_orientation_patient.1,
           .num s.image_orientation_patient.2.1,
           .num s.image_orientation_patient.2.2.1,
           .num s.image_orientation_patient.2.2.2.1,
           .num s.image_orientation_patient.2.2.2.2.1,
           .num s.image_orientation_patient.2.2.2.2.2]),
   ("frame_of_reference_uid", .str s.frame_of_reference_uid),
   ("window_center", optNumJson s.window_center),
   ("window_width", optNumJson s.window_width),
   ("file_paths", .arr (s.file_paths.map Json.str)),
   ("slice_locations", .arr (s.slice_locations.map Json.num)),
   ("is_loaded", .bool s.is_loaded),
   ("is_visible", .bool s.is_visible),
   ("is_selected", .bool s.is_selected),
   ("show_volume", .bool s.show_volume),
   ("show_bone", .bool s.show_bone),
   ("tissue_volumes", .obj (s.tissue_volumes.map (fun kv => (kv.1, Json.num kv.2))))]

/-- Keyword lookup with a dataclass default: an absent key falls back to the
field's default value, a present key must decode to the field's type. -/
def kwGetD {α : Type} (kvs : List (String × Json)) (key : String)
    (dec : Json → Option α) (dflt : α) : Option α :=
  match jget kvs key with
  | none => some dflt
  | some j => dec j

/-- Identification/acquisition keyword group of the `SeriesInfo` constructor. -/
def seriesKwIdent (kvs : List (String × Json)) :
    Option (String × ℤ × String × String × List String × ℤ) := do
  let uid ← (← jget kvs "series_instance_uid").asStr
  let sn ← kwGetD kvs "series_number" Json.asInt 0
  let sd ← kwGetD kvs "series_description" Json.asStr ""
  let mo ← kwGetD kvs "modality" Json.asStr ""
  let it ← kwGetD kvs "image_type" decodeStrList []
  let rw ← kwGetD kvs "rows" Json.asInt 0
  some (uid, sn, sd, mo, it, rw)

/-- Geometry keyword group of the `SeriesInfo` constructor. -/
def seriesKwGeom (kvs : List (String × Json)) :
    Option (ℤ × ℤ × (ℚ × ℚ) × ℚ × (ℚ × ℚ × ℚ) × (ℚ × ℚ × ℚ × ℚ × ℚ × ℚ)) := do
  let cl ← kwGetD kvs "cols" Json.asInt 0
  let sc ← kwGetD kvs "slice_count" Json.asInt 0
  let ps ← kwGetD kvs "pixel_spacing" decodePair (1, 1)
  let st ← kwGetD kvs "slice_thickness" Json.asNum 1
  let ipp ← kwGetD kvs "image_position_patient" decodeTriple (0, 0, 0)
  let iop ← kwGetD kvs "image_orientation_patient" decodeSix (1, 0, 0, 0, 1, 0)
  some (cl, sc, ps, st, ipp, iop)

/-- File-reference/window keyword group of the `SeriesInfo` constructor. -/
def seriesKwFiles (kvs : List (String × Json)) :
    Option (String × Option ℚ × Option ℚ × List String × List ℚ) := do
  let fr ← kwGetD kvs "frame_of_reference_uid" Json.asStr ""
  let wc ← kwGetD kvs "window_center" Json.asOptNum none
  let ww ← kwGetD kvs "window_width" Json.asOptNum none
  let fp ← kwGetD kvs "file_paths" decodeStrList []
  let sl ← kwGetD kvs "slice_locations" decodeNumList []
  some (fr, wc, ww, fp, sl)

/-- State/measurement keyword group of the `SeriesInfo` constructor. -/
def seriesKwState (kvs : List (String × Json)) :
    Option (Bool × Bool × Bool × Bool × Bool × List (String × ℚ)) := do
  let il ← kwGetD kvs "is_loaded" Json.asBool false
  let iv ← kwGetD kvs "is_visible" Json.asBool false
  let isel ← kwGetD kvs "is_selected" Json.asBool true
  let sv ← kwGetD kvs "show_volume" Json.asBool true
  let sb ← kwGetD kvs "show_bone" Json.asBool false
  let tv ← kwGetD kvs "tissue_volumes" decodeNumMap []
  some (il, iv, isel, sv, sb, tv)

/-- The `SeriesInfo(**kwargs)` dataclass constructor call: Python raises
`TypeError` when a keyword is not a declared field or when the sole
default-less field `series_instance_uid` is missing; otherwise each absent
keyword takes the field's declared default.  `none` models the raise. -/
def seriesInfoCtor (kvs : List (String × Json)) : Option SeriesInfo :=
  if (kvs.map Prod.fst).all (fun k => seriesInfoFieldNames.contains k) then do
    let (uid, sn, sd, mo, it, rw) ← seriesKwIdent kvs
    let (cl, sc, ps, st, ipp, iop) ← seriesKwGeom kvs
    let (fr, wc, ww, fp, sl) ← seriesKwFiles kvs
    let (il, iv, isel, sv, sb, tv) ← seriesKwState kvs
    some { series_instance_uid := uid, series_number := sn,
           series_description := sd, modality := mo, image_type := it,
           rows := rw, cols := cl, slice_count := sc, pixel_spacing := ps,
           slice_thickness := st, image_position_patient := ipp,
           image_orientation_patient := iop, frame_of_reference_uid := fr,
           window_center := wc, window_width := ww, file_paths := fp,
           slice_locations := sl, is_loaded := il, is_visible := iv,
           is_selected := isel, show_volume := sv, show_bone := sb,
           tissue_volumes := tv }
  else none

/-- `patient.py` lines 70-81: `SeriesInfo.from_dict`.  The tuple-typed
fields arrive as JSON arrays (the `isinstance(..., list)` branch always
fires on JSON input) and `cls(**data)` is the dataclass constructor. -/
def SeriesInfo.from_dict (kvs : List (String × Json)) : Option SeriesInfo :=
  seriesInfoCtor kvs

/-- `src/extension/patient.py` lines 84-115: the `Patient` dataclass. -/
structure Patient where
  patient_id : String := ""
  patient_name : String := ""
  patient_birth_date : String := ""
  patient_sex : String := ""
  study_instance_uid : String := ""
  study_date : String := ""
  study_description : String := ""
  dicom_root_path : String := ""
  series : List SeriesInfo := []
  volume_objects : List (String × String) := []
  mesh_objects : List (String × String) := []
  primary_count : ℤ := 0
  secondary_count : ℤ := 0
  non_image_count : ℤ := 0
deriving DecidableEq

/-- The field names accepted by the `Patient` dataclass constructor. -/
def patientFieldNames : List String :=
  ["patient_id", "patient_name", "patient_birth_date", "patient_sex",
   "study_instance_uid", "study_date", "study_description",
   "dicom_root_path", "series", "volume_objects", "mesh_objects",
   "primary_count", "secondary_count", "non_image_count"]

/-- `patient.py` lines 117-135: `Patient.to_json`.  The serialized keys and
their order are exactly those of the literal dict in the source. -/
def Patient.to_json (p : Patient) : Json :=
  .obj [("patient_id", .str p.patient_id),
        ("patient_name", .str p.patient_name),
        ("patient_birth_date", .str p.patient_birth_date),
        ("patient_sex", .str p.patient_sex),
        ("study_instance_uid", .str p.study_instance_uid),
        ("study_date", .str p.study_date),
        ("study_description", .str p.study_description),
        ("dicom_root_path", .str p.dicom_root_path),
        ("series", .arr (p.series.map (fun s => .obj s.to_dict))),
        ("volume_objects", .obj (p.volume_objects.map (fun kv => (kv.1, Json.str kv.2)))),
        ("mesh_objects", .obj (p.mesh_objects.map (fun kv => (kv.1, Json.str kv.2)))),
        ("primary_count", .int p.primary_count),
        ("secondary_count", .int p.secondary_count),
        ("non_image_count", .int p.non_image_count)]

/-- Patient/study metadata keyword group of the `Patient` constructor. -/
def patientKwMeta (kvs : List (String × Json)) :
    Option (String × String × String × String × String × String × String) := do
  let pid ← kwGetD kvs "patient_id" Json.asStr ""
  let pn ← kwGetD kvs "patient_name" Json.asStr ""
  let pbd ← kwGetD kvs "patient_birth_date" Json.asStr ""
  let psx ← kwGetD kvs "patient_sex" Json.asStr ""
  let sid ← kwGetD kvs "study_instance_uid" Json.asStr ""
  let sdte ← kwGetD kvs "study_date" Json.asStr ""
  let sdesc ← kwGetD kvs "study_description" Json.asStr ""
  some (pid, pn, pbd, psx, sid, sdte, sdesc)

/-- Path/objects/counts keyword group of the `Patient` constructor. -/
def patientKwRest (kvs : List (String × Json)) :
    Option (String × List (String × String) × List (String × String) × ℤ × ℤ × ℤ) := do
  let root ← kwGetD kvs "dicom_root_path" Json.asStr ""
  let vo ← kwGetD kvs "volume_objects" decodeStrMap []
  let mo ← kwGetD kvs "mesh_objects" decodeStrMap []
  let pc ← kwGetD kvs "primary_count" Json.asInt 0
  let sc ← kwGetD kvs "secondary_count" Json.asInt 0
  let nc ← kwGetD kvs "non_image_count" Json.asInt 0
  some (root, vo, mo, pc, sc, nc)

/-- The `Patient(**data)` dataclass constructor call (every field has a
default, unknown keywords raise `TypeError`, modelled as `none`). -/
def patientCtor (kvs : List (String × Json)) : Option Patient := do
  if (kvs.map Prod.fst).all (fun k => patientFieldNames.contains k) then
    let (pid, pn, pbd, psx, sid, sdte, sdesc) ← patientKwMeta kvs
    let (root, vo, mo, pc, sc, nc) ← patientKwRest kvs
    some { patient_id := pid, patient_name := pn, patient_birth_date := pbd,
           patient_sex := psx, study_instance_uid := sid, study_date := sdte,
           study_description := sdesc, dicom_root_path := root, series := [],
           volume_objects := vo, mesh_objects := mo, primary_count := pc,
           secondary_count := sc, non_image_count := nc }
  else none

/-- Decode one element of the serialized series list. -/
def decodeSeriesElem : Json → Option SeriesInfo
  | .obj skvs => SeriesInfo.from_dict skvs
  | _ => none

/-- `patient.py` lines 137-150: `Patient.from_json`.  `data.pop('series', [])`
removes the series list (default `[]`), the remaining keys go through the
`Patient` constructor, and the parsed series are assigned afterwards. -/
def Patient.from_json : Json → Option Patient
  | .obj kvs => do
    let seriesJson := (jget kvs "series").getD (.arr [])
    let rest := kvs.filter (fun kv => kv.1 ≠ "series")
    let sers ← (match seriesJson with
                | .arr xs => seqOpt decodeSeriesElem xs
                | _ => none)
    let p ← patientCtor rest
    some { p with series := sers }
  | _ => none

theorem seqOpt_asStr_map (xs : List String) :
    seqOpt Json.asStr (xs.map Json.str) = some xs := by
  induction xs with
  | nil => rfl
  | cons x xs ih => simp [seqOpt, ih, Json.asStr]

theorem seqOpt_asNum_map (xs : List ℚ) :
    seqOpt Json.asNum (xs.map Json.num) = some xs := by
  induction xs with
  | nil => rfl
  | cons x xs ih => simp [seqOpt, ih, Json.asNum]

theorem seqOpt_numMap_map (kvs : List (String × ℚ)) :
    seqOpt decodeNumEntry (kvs.map (fun kv => (kv.1, Json.num kv.2))) = some kvs := by
  induction kvs with
  | nil => rfl
  | cons kv kvs ih =>
    have h1 : decodeNumEntry (kv.1, Json.num kv.2) = some kv := by
      simp [decodeNumEntry, Json.asNum]
    simp [seqOpt, h1, ih]

theorem seqOpt_strMap_map (kvs : List (String × String)) :
    seqOpt decodeStrEntry (kvs.map (fun kv => (kv.1, Json.str kv.2))) = some kvs := by
  induction kvs with
  | nil => rfl
  | cons kv kvs ih =>
    have h1 : decodeStrEntry (kv.1, Json.str kv.2) = some kv := by
      simp [decodeStrEntry, Json.asStr]
    simp [seqOpt, h1, ih]

theorem seriesInfo_to_dict_roundtrip (s : SeriesInfo) :
    SeriesInfo.from_dict s.to_dict = some s := by
  obtain ⟨uid, sn, sd, mo, it, rw, cl, sc, ⟨ps1, ps2⟩, st, ⟨ip1, ip2, ip3⟩,
    ⟨o1, o2, o3, o4, o5, o6⟩, fr, wc, ww, fp, sl, il, iv, isel, sv, sb, tv⟩ := s
  cases wc <;> cases ww <;>
    simp [SeriesInfo.from_dict, seriesInfoCtor, SeriesInfo.to_dict,
      seriesKwIdent, seriesKwGeom, seriesKwFiles, seriesKwState, kwGetD, jget,
      seriesInfoFieldNames, decodeStrList, decodeNumList, decodePair,
      decodeTriple, decodeSix, decodeNumMap, optNumJson, Json.asStr,
      Json.asInt, Json.asNum, Json.asBool, Json.asOptNum,
      seqOpt_asStr_map, seqOpt_asNum_map, seqOpt_numMap_map]

theorem seqOpt_series_map (ss : List SeriesInfo) :
    seqOpt decodeSeriesElem (ss.map (fun s => Json.obj s.to_dict)) = some ss := by
  induction ss with
  | nil => rfl
  | cons s ss ih =>
    have h1 : decodeSeriesElem (Json.obj s.to_dict) = some s := by
      simpa [decodeSeriesElem] using seriesInfo_to_dict_roundtrip s
    simp [seqOpt, h1, ih]

/-- C1: Patient-record round trip.  For every `Patient` value — in
particular one with an empty series list, one whose single series came from
a 4D acquisition, and one with tissue-volume measurements populated —
`Patient.from_json (Patient.to_json p)` returns exactly `p`, all empty and
optional fields included. -/
theorem C1_patient_record_roundtrip (p : Patient) :
    Patient.from_json p.to_json = some p := by
  obtain ⟨pid, pn, pbd, psx, sid, sdte, sdesc, root, sers, vo, mo, pc, sc, nc⟩ := p
  simp [Patient.from_json, Patient.to_json, jget, patientCtor, patientKwMeta,
    patientKwRest, kwGetD, patientFieldNames, decodeStrMap, seqOpt_strMap_map,
    seqOpt_series_map, Json.asStr, Json.asInt]

/-- `src/extension/dicom_io.py` lines 446-467: the keyword arguments passed
to `SeriesInfo(...)` by `load_patient_from_folder`, in call order; the
values are whatever the loader computed for the series being converted. -/
def loadPatientSeriesKwargs
    (uid sn sd mo it rw cl sc ps st ipp iop fr wc ww fp sl i4 tp ntp : Json) :
    List (String × Json) :=
  [("series_instance_uid", uid), ("series_number", sn),
   ("series_description", sd), ("modality", mo), ("image_type", it),
   ("rows", rw), ("cols", cl), ("slice_count", sc), ("pixel_spacing", ps),
   ("slice_thickness", st), ("image_position_patient", ipp),
   ("image_orientation_patient", iop), ("frame_of_reference_uid", fr),
   ("window_center", wc), ("window_width", ww), ("file_paths", fp),
   ("slice_locations", sl), ("is_4d", i4), ("time_points", tp),
   ("num_time_points", ntp)]

/-- C2: whenever `load_patient_from_folder` reaches series construction it
passes the keywords `is_4d`, `time_points` and `num_time_points` to the
`SeriesInfo` dataclass constructor, which declares no such fields, so the
construction raises `TypeError` (modelled as `none`) for every possible
value of the arguments — the loader can never populate `Patient.series`
through this path. -/
theorem C2_loader_seriesinfo_ctor_raises
    (uid sn sd mo it rw cl sc ps st ipp iop fr wc ww fp sl i4 tp ntp : Json) :
    seriesInfoCtor
      (loadPatientSeriesKwargs uid sn sd mo it rw cl sc ps st ipp iop fr wc
        ww fp sl i4 tp ntp) = none ∧
    "is_4d" ∈ (loadPatientSeriesKwargs uid sn sd mo it rw cl sc ps st ipp
        iop fr wc ww fp sl i4 tp ntp).map Prod.fst ∧
    "is_4d" ∉ seriesInfoFieldNames := by
  refine ⟨?_, by simp [loadPatientSeriesKwargs], by decide⟩
  simp [seriesInfoCtor, loadPatientSeriesKwargs, seriesInfoFieldNames]

/-- A 3-vector of (exact) floats. -/
structure Vec3 where
  x : ℚ
  y : ℚ
  z : ℚ
deriving DecidableEq

/-- `np.cross` for 3-vectors. -/
def cross (a b : Vec3) : Vec3 :=
  ⟨a.y * b.z - a.z * b.y, a.z * b.x - a.x * b.z, a.x * b.y - a.y * b.x⟩

/-- `np.dot` for 3-vectors. -/
def dot (a b : Vec3) : ℚ :=
  a.x * b.x + a.y * b.y + a.z * b.z

/-- One decoded slice as consumed by `create_volume`
(`src/extension/dicom_io.py` `load_slice` output): pixel buffer, row and
column orientation cosines (`ImageOrientationPatient[:3]` / `[3:]`),
3D position (`ImagePositionPatient`), spacing and thickness. -/
structure RawSlice where
  pixels : List (List ℚ)
  rowDir : Vec3
  colDir : Vec3
  pos : Vec3
  pixel_spacing : ℚ × ℚ := (1, 1)
  slice_thickness : ℚ := 1
deriving DecidableEq

/-- `volume_creation.py` line 241: the slice-plane normal is the cross
product of the row and column direction cosines. -/
def normalVector (s : RawSlice) : Vec3 := cross s.rowDir s.colDir

/-- `volume_creation.py` line 246 sort key: the scalar projection of the
slice position onto its plane normal, `np.dot(position, normal_vector)`. -/
def projKey (s : RawSlice) : ℚ := dot s.pos (normalVector s)

/-- The comparison used by `sorted(slices, key=...)`. -/
def sliceLE (a b : RawSlice) : Bool := decide (projKey a ≤ projKey b)

/-- `volume_creation.py` line 246: Python `sorted` is a stable sort by the
projection key; `List.mergeSort` is the stable sort of the Lean library. -/
def sortSlices (l : List RawSlice) : List RawSlice := l.mergeSort sliceLE

/-- The `numpy` shape `(H, W)` of a 2D pixel buffer. -/
def npShape (p : List (List ℚ)) : ℕ × ℕ := (p.length, (p.headD []).length)

/-- `src/extension/constants.py` line 4. -/
def MIN_SLICES_REQUIRED : ℕ := 2

/-- `src/extension/constants.py` line 5. -/
def EXTREME_NEGATIVE_THRESHOLD : ℚ := -2000

/-- `src/extension/constants.py` line 6. -/
def EXTREME_NEGATIVE_CLAMP : ℚ := -1024

/-- `src/extension/constants.py` line 9. -/
def HU_MIN_FIXED : ℚ := -1024

/-- `src/extension/constants.py` line 10. -/
def HU_MAX_FIXED : ℚ := 3071

/-- Failure modes of `create_volume`: `slices[0]` on an empty list raises
`IndexError`; fewer than `MIN_SLICES_REQUIRED` matching slices raises the
`ValueError("Need at least 2 slices with matching dimensions")`. -/
inductive VolumeError where
  | indexError : VolumeError
  | insufficientSlices : VolumeError
deriving DecidableEq

/-- `volume_creation.py` lines 231-253: sort the slices by the projection of
position onto the plane normal, keep only the slices whose pixel shape
equals the first (sorted) slice's shape, and require at least
`MIN_SLICES_REQUIRED` survivors. -/
def assembleSlices (slices : List RawSlice) : Except VolumeError (List RawSlice) :=
  match sortSlices slices with
  | [] => .error .indexError
  | first :: rest =>
    let kept := (first :: rest).filter
      (fun s => decide (npShape s.pixels = npShape first.pixels))
    if kept.length < MIN_SLICES_REQUIRED then .error .insufficientSlices
    else .ok kept

/-- `volume_creation.py` line 256: `np.stack` of the surviving slices'
pixel buffers, in sorted order. -/
def create_volume_stack (slices : List RawSlice) :
    Except VolumeError (List (List (List ℚ))) :=
  (assembleSlices slices).map (fun ks => ks.map (fun s => s.pixels))

/-- `np.clip(v, lo, hi)`, which numpy documents as
`np.minimum(hi, np.maximum(v, lo))` (no check that `lo ≤ hi`). -/
def np_clip (lo hi v : ℚ) : ℚ := min hi (max v lo)

/-- `np.min` of a sample list (the value is only used on nonempty arrays). -/
def listMin : List ℚ → ℚ
  | [] => 0
  | [x] => x
  | x :: y :: xs => min x (listMin (y :: xs))

/-- `np.max` of a sample list (the value is only used on nonempty arrays). -/
def listMax : List ℚ → ℚ
  | [] => 0
  | [x] => x
  | x :: y :: xs => max x (listMax (y :: xs))

/-- `volume_creation.py` lines 322-326: if the raw minimum is below
`EXTREME_NEGATIVE_THRESHOLD`, clamp the whole array with
`np.clip(vol, EXTREME_NEGATIVE_CLAMP, vol_max)`. -/
def clean_volume (vol : List ℚ) : List ℚ :=
  let vol_min := listMin vol
  let vol_max := listMax vol
  if vol_min < EXTREME_NEGATIVE_THRESHOLD then
    vol.map (np_clip EXTREME_NEGATIVE_CLAMP vol_max)
  else vol

/-- `volume_creation.py` lines 386-390: fixed-range normalization
`(v - HU_MIN_FIXED) / (HU_MAX_FIXED - HU_MIN_FIXED)` followed by
`np.clip(…, 0.0, 1.0)`. -/
def normalize_value (v : ℚ) : ℚ :=
  np_clip 0 1 ((v - HU_MIN_FIXED) / (HU_MAX_FIXED - HU_MIN_FIXED))

/-- Elementwise normalization of the cleaned array. -/
def normalize_volume (vol : List ℚ) : List ℚ := vol.map normalize_value

theorem np_clip01_bounds (x : ℚ) : 0 ≤ np_clip 0 1 x ∧ np_clip 0 1 x ≤ 1 := by
  constructor
  · exact le_min (by norm_num) (le_max_right x 0)
  · exact min_le_left 1 _

theorem np_clip01_of_bounds {y : ℚ} (h0 : 0 ≤ y) (h1 : y ≤ 1) :
    np_clip 0 1 y = y := by
  unfold np_clip
  rw [max_eq_left h0, min_eq_right h1]

theorem np_clip01_idem (x : ℚ) : np_clip 0 1 (np_clip 0 1 x) = np_clip 0 1 x :=
  np_clip01_of_bounds (np_clip01_bounds x).1 (np_clip01_bounds x).2

/-- C4 (amended): the full fixed-range normalization is not idempotent (see
the counterexample), but its final clamping step is: re-applying
`np.clip(·, 0.0, 1.0)` to a normalized array returns the identical array,
and every normalized sample already lies in `[0, 1]`. -/
theorem C4_amended_clip_step_idempotent (vol : List ℚ) :
    (normalize_volume vol).map (np_clip 0 1) = normalize_volume vol ∧
    ∀ v ∈ normalize_volume vol, 0 ≤ v ∧ v ≤ 1 := by
  constructor
  · unfold normalize_volume
    rw [List.map_map]
    refine List.map_congr_left (fun v _ => ?_)
    simpa [Function.comp, normalize_value] using np_clip01_idem
      ((v - HU_MIN_FIXED) / (HU_MAX_FIXED - HU_MIN_FIXED))
  · intro v hv
    obtain ⟨w, _, rfl⟩ := List.mem_map.mp hv
    exact np_clip01_bounds _

/-- C4 counterexample: applying the fixed-range normalization twice differs
from applying it once — on the one-sample array `[-1024]` one application
yields `[0]` but a second application yields `[1024/4095]`. -/
theorem C4_counterexample :
    normalize_volume (normalize_volume [-1024]) ≠ normalize_volume [-1024] := by
  have h1 : normalize_volume [-1024] = [0] := by
    norm_num [normalize_volume, normalize_value, np_clip, HU_MIN_FIXED,
      HU_MAX_FIXED, min_def, max_def]
  rw [h1]
  norm_num [normalize_volume, normalize_value, np_clip, HU_MIN_FIXED,
    HU_MAX_FIXED, min_def, max_def]

theorem listMin_le {l : List ℚ} {x : ℚ} (h : x ∈ l) : listMin l ≤ x := by
  induction l with
  | nil => cases h
  | cons a t ih =>
    cases t with
    | nil =>
      rcases List.mem_cons.mp h with rfl | h2
      · exact le_refl _
      · cases h2
    | cons b t2 =>
      rcases List.mem_cons.mp h with rfl | h2
      · exact min_le_left _ _
      · exact le_trans (min_le_right _ _) (ih h2)

theorem listMin_mem {l : List ℚ} (h : l ≠ []) : listMin l ∈ l := by
  induction l with
  | nil => exact absurd rfl h
  | cons a t ih =>
    cases t with
    | nil => simp [listMin]
    | cons b t2 =>
      rcases min_cases a (listMin (b :: t2)) with ⟨he, _⟩ | ⟨he, _⟩
      · simp [listMin, he]
      · have hm := ih (by simp)
        simp only [listMin, he]
        exact List.mem_cons_of_mem a hm

theorem le_listMax {l : List ℚ} {x : ℚ} (h : x ∈ l) : x ≤ listMax l := by
  induction l with
  | nil => cases h
  | cons a t ih =>
    cases t with
    | nil =>
      rcases List.mem_cons.mp h with rfl | h2
      · exact le_refl _
      · cases h2
    | cons b t2 =>
      rcases List.mem_cons.mp h with rfl | h2
      · exact le_max_left _ _
      · exact le_trans (ih h2) (le_max_right _ _)

/-- C7 (amended): if the assembled array contains a sample below the hard
floor `EXTREME_NEGATIVE_THRESHOLD = -2000` *and also contains some sample
at or above the clamp floor* `EXTREME_NEGATIVE_CLAMP = -1024`, then after
the cleaning step the array minimum equals `-1024` exactly.  (Without the
second condition the claim fails, because the code clamps with
`np.clip(vol, -1024, vol_max)` and `vol_max` is then below the floor — see
the counterexample.) -/
theorem C7_amended_outlier_clamping (vol : List ℚ) (x : ℚ) (hx : x ∈ vol)
    (hxlow : x < EXTREME_NEGATIVE_THRESHOLD)
    (hy : ∃ y ∈ vol, EXTREME_NEGATIVE_CLAMP ≤ y) :
    listMin (clean_volume vol) = EXTREME_NEGATIVE_CLAMP := by
  obtain ⟨y, hymem, hyge⟩ := hy
  have hbranch : listMin vol < EXTREME_NEGATIVE_THRESHOLD :=
    lt_of_le_of_lt (listMin_le hx) hxlow
  have hM : EXTREME_NEGATIVE_CLAMP ≤ listMax vol := le_trans hyge (le_listMax hymem)
  have hmap : clean_volume vol = vol.map (np_clip EXTREME_NEGATIVE_CLAMP (listMax vol)) := by
    unfold clean_volume
    simp [if_pos hbranch]
  have hxelem : np_clip EXTREME_NEGATIVE_CLAMP (listMax vol) x = EXTREME_NEGATIVE_CLAMP := by
    unfold np_clip
    have hxle : x ≤ EXTREME_NEGATIVE_CLAMP := by
      refine le_of_lt (lt_of_lt_of_le hxlow ?_)
      unfold EXTREME_NEGATIVE_THRESHOLD EXTREME_NEGATIVE_CLAMP
      norm_num
    rw [max_eq_right hxle, min_eq_right hM]
  have hlow : ∀ z ∈ vol.map (np_clip EXTREME_NEGATIVE_CLAMP (listMax vol)),
      EXTREME_NEGATIVE_CLAMP ≤ z := by
    intro z hz
    obtain ⟨w, _, rfl⟩ := List.mem_map.mp hz
    exact le_min hM (le_max_right w _)
  have hne : vol.map (np_clip EXTREME_NEGATIVE_CLAMP (listMax vol)) ≠ [] := by
    intro hcon
    rw [List.map_eq_nil_iff] at hcon
    subst hcon
    cases hx
  rw [hmap]
  have hmem : EXTREME_NEGATIVE_CLAMP ∈
      vol.map (np_clip EXTREME_NEGATIVE_CLAMP (listMax vol)) := by
    have h0 : np_clip EXTREME_NEGATIVE_CLAMP (listMax vol) x ∈
        vol.map (np_clip EXTREME_NEGATIVE_CLAMP (listMax vol)) :=
      List.mem_map_of_mem _ hx
    rwa [hxelem] at h0
  exact le_antisymm (listMin_le hmem) (hlow _ (listMin_mem hne))

/-- C7 witness: the spec scenario — an array whose raw minimum is `-3000`
(and which contains in-range tissue samples) cleans to minimum exactly
`-1024`. -/
theorem C7_amended_outlier_clamping_witness :
    listMin (clean_volume [-3000, 500]) = EXTREME_NEGATIVE_CLAMP :=
  C7_amended_outlier_clamping [-3000, 500] (-3000) (by norm_num)
    (by norm_num [EXTREME_NEGATIVE_THRESHOLD])
    ⟨500, by norm_num, by norm_num [EXTREME_NEGATIVE_CLAMP]⟩

/-- C7 counterexample: the claim as stated (any array with a sample below
`-2000` cleans to minimum exactly `-1024`) is false — for `[-3000, -2500]`
the clamp upper bound `vol_max = -2500` lies below the floor, numpy's
`clip` returns `vol_max` everywhere, and the cleaned minimum is `-2500`. -/
theorem C7_counterexample :
    (-3000 : ℚ) ∈ ([-3000, -2500] : List ℚ) ∧
    (-3000 : ℚ) < EXTREME_NEGATIVE_THRESHOLD ∧
    listMin (clean_volume [-3000, -2500]) ≠ EXTREME_NEGATIVE_CLAMP := by
  refine ⟨by norm_num, by norm_num [EXTREME_NEGATIVE_THRESHOLD], ?_⟩
  have h1 : clean_volume [-3000, -2500] = [-2500, -2500] := by
    norm_num [clean_volume, listMin, listMax, np_clip,
      EXTREME_NEGATIVE_THRESHOLD, EXTREME_NEGATIVE_CLAMP, min_def, max_def]
  rw [h1]
  norm_num [listMin, EXTREME_NEGATIVE_CLAMP, min_def]

theorem sliceLE_trans (a b c : RawSlice) (h1 : sliceLE a b) (h2 : sliceLE b c) :
    sliceLE a c := by
  simp only [sliceLE, decide_eq_true_eq] at *
  exact le_trans h1 h2

theorem sliceLE_total (a b : RawSlice) : sliceLE a b || sliceLE b a := by
  simp only [sliceLE, Bool.or_eq_true, decide_eq_true_eq]
  exact le_total _ _

theorem sortSlices_perm (l : List RawSlice) : (sortSlices l).Perm l :=
  List.mergeSort_perm l sliceLE

theorem sortSlices_sorted (l : List RawSlice) :
    (sortSlices l).Pairwise (fun a b => projKey a ≤ projKey b) := by
  have h := List.sorted_mergeSort sliceLE_trans sliceLE_total l
  exact h.imp (fun hab => by simpa [sliceLE, decide_eq_true_eq] using hab)

theorem sorted_perm_nodup_eq {α γ : Type} [LinearOrder γ] (key : α → γ) (l₁ : List α) :
    ∀ l₂ : List α, l₁.Perm l₂ →
      l₁.Pairwise (fun a b => key a ≤ key b) →
      l₂.Pairwise (fun a b => key a ≤ key b) →
      (l₁.map key).Nodup → l₁ = l₂ := by
  induction l₁ with
  | nil =>
    intro l₂ hp _ _ _
    exact hp.nil_eq
  | cons a t ih =>
    intro l₂ hp hs1 hs2 hnd
    have hnd2 : key a ∉ t.map key ∧ (t.map key).Nodup := by
      have h := hnd
      rw [List.map_cons, List.nodup_cons] at h
      exact h
    cases l₂ with
    | nil => exact absurd hp.symm.nil_eq (by simp)
    | cons b t₂ =>
      have hab : a = b := by
        by_contra hne
        have hain : a ∈ b :: t₂ := hp.mem_iff.mp (List.mem_cons_self a t)
        have hbin : b ∈ a :: t := hp.mem_iff.mpr (List.mem_cons_self b t₂)
        have hat2 : a ∈ t₂ := by
          rcases List.mem_cons.mp hain with h | h
          · exact absurd h hne
          · exact h
        have hbt : b ∈ t := by
          rcases List.mem_cons.mp hbin with h | h
          · exact absurd h.symm hne
          · exact h
        have h1 : key a ≤ key b := (List.pairwise_cons.mp hs1).1 b hbt
        have h2 : key b ≤ key a := (List.pairwise_cons.mp hs2).1 a hat2
        have heq : key a = key b := le_antisymm h1 h2
        have hmem : key a ∈ t.map key := by
          rw [heq]
          exact List.mem_map_of_mem key hbt
        exact hnd2.1 hmem
      subst hab
      have ht : t.Perm t₂ := hp.cons_inv
      have hrec := ih t₂ ht (List.pairwise_cons.mp hs1).2
        (List.pairwise_cons.mp hs2).2 hnd2.2
      rw [hrec]

theorem sortSlices_eq_of_perm (l₁ l₂ : List RawSlice) (hp : l₁.Perm l₂)
    (hnd : (l₁.map projKey).Nodup) : sortSlices l₁ = sortSlices l₂ := by
  refine sorted_perm_nodup_eq projKey (sortSlices l₁) (sortSlices l₂)
    ((sortSlices_perm l₁).trans (hp.trans (sortSlices_perm l₂).symm))
    (sortSlices_sorted l₁) (sortSlices_sorted l₂) ?_
  exact (((sortSlices_perm l₁).map projKey).nodup_iff).mpr hnd

/-- C3 (amended): volume assembly is determined by the plane-normal
projection keys *provided the keys are pairwise distinct*: any two input
orders of the same slices assemble to the identical stack, the stacked
slices are in nondecreasing key order, and the stack holds exactly the
input slices whose pixel shape matches the reference (first sorted) slice,
each of that shape.  (When two slices share a key, Python's stable sort
keeps input order, so the result depends on input order — see the
counterexample.) -/
theorem C3_amended_assembly_order (l₁ l₂ : List RawSlice) (hperm : l₁.Perm l₂)
    (hnd : (l₁.map projKey).Nodup) :
    create_volume_stack l₁ = create_volume_stack l₂ ∧
    ∀ ks, assembleSlices l₁ = .ok ks →
      ks.Pairwise (fun a b => projKey a ≤ projKey b) ∧
      MIN_SLICES_REQUIRED ≤ ks.length ∧
      ∃ first rest, sortSlices l₁ = first :: rest ∧
        ks.length = l₁.countP (fun s => decide (npShape s.pixels = npShape first.pixels)) ∧
        ∀ p ∈ ks.map (fun s => s.pixels), npShape p = npShape first.pixels := by
  constructor
  · unfold create_volume_stack assembleSlices
    rw [sortSlices_eq_of_perm l₁ l₂ hperm hnd]
  · intro ks hks
    unfold assembleSlices at hks
    cases hsort : sortSlices l₁ with
    | nil => rw [hsort] at hks; cases hks
    | cons first rest =>
      rw [hsort] at hks
      simp only [] at hks
      by_cases hlen : ((first :: rest).filter
          (fun s => decide (npShape s.pixels = npShape first.pixels))).length <
          MIN_SLICES_REQUIRED
      · rw [if_pos hlen] at hks; cases hks
      · rw [if_neg hlen] at hks
        have hks2 : ks = (first :: rest).filter
            (fun s => decide (npShape s.pixels = npShape first.pixels)) :=
          (Except.ok.inj hks).symm
        subst hks2
        refine ⟨?_, ?_, first, rest, rfl, ?_, ?_⟩
        · have hsorted := sortSlices_sorted l₁
          rw [hsort] at hsorted
          exact hsorted.sublist (List.filter_sublist _)
        · exact le_of_not_lt hlen
        · rw [← List.countP_eq_length_filter]
          have hp2 : (first :: rest).Perm l₁ := by
            rw [← hsort]
            exact sortSlices_perm l₁
          exact hp2.countP_eq _
        · intro p hp
          obtain ⟨s, hs, rfl⟩ := List.mem_map.mp hp
          have := (List.mem_filter.mp hs).2
          exact of_decide_eq_true this

/-- Slices sharing one plane-normal projection (identical geometry,
different pixel data), used to refute order independence. -/
def sliceTieA : RawSlice :=
  { pixels := [[1]], rowDir := ⟨1, 0, 0⟩, colDir := ⟨0, 1, 0⟩, pos := ⟨0, 0, 0⟩ }

/-- Second slice of the tied pair. -/
def sliceTieB : RawSlice :=
  { pixels := [[2]], rowDir := ⟨1, 0, 0⟩, colDir := ⟨0, 1, 0⟩, pos := ⟨0, 0, 0⟩ }

/-- C3 counterexample: with two slices of equal projection key the stacked
output *does* depend on the input iteration order — the two permutations of
the same slice pair assemble to different stacks, refuting "the slice order
is determined solely by the scalar projection, independent of the input
iteration order." -/
theorem C3_counterexample :
    ([sliceTieA, sliceTieB] : List RawSlice).Perm [sliceTieB, sliceTieA] ∧
    projKey sliceTieA = projKey sliceTieB ∧
    create_volume_stack [sliceTieA, sliceTieB] ≠
      create_volume_stack [sliceTieB, sliceTieA] := by
  have hA : projKey sliceTieA = 0 := by
    norm_num [projKey, dot, cross, normalVector, sliceTieA]
  have hB : projKey sliceTieB = 0 := by
    norm_num [projKey, dot, cross, normalVector, sliceTieB]
  have hle1 : sliceLE sliceTieA sliceTieB = true := by simp [sliceLE, hA, hB]
  have hle2 : sliceLE sliceTieB sliceTieA = true := by simp [sliceLE, hA, hB]
  have hs1 : sortSlices [sliceTieA, sliceTieB] = [sliceTieA, sliceTieB] := by
    unfold sortSlices
    exact List.mergeSort_of_sorted (by simp [List.pairwise_cons, hle1])
  have hs2 : sortSlices [sliceTieB, sliceTieA] = [sliceTieB, sliceTieA] := by
    unfold sortSlices
    exact List.mergeSort_of_sorted (by simp [List.pairwise_cons, hle2])
  have e1 : create_volume_stack [sliceTieA, sliceTieB] = .ok [[[1]], [[2]]] := by
    unfold create_volume_stack assembleSlices
    rw [hs1]
    simp [npShape, sliceTieA, sliceTieB, MIN_SLICES_REQUIRED, Except.map]
  have e2 : create_volume_stack [sliceTieB, sliceTieA] = .ok [[[2]], [[1]]] := by
    unfold create_volume_stack assembleSlices
    rw [hs2]
    simp [npShape, sliceTieA, sliceTieB, MIN_SLICES_REQUIRED, Except.map]
  refine ⟨List.Perm.swap _ _ _, by rw [hA, hB], ?_⟩
  rw [e1, e2]
  simp

/-- Axial slice at z = 1 (projection key 1). -/
def sliceW1 : RawSlice :=
  { pixels := [[3]], rowDir := ⟨1, 0, 0⟩, colDir := ⟨0, 1, 0⟩, pos := ⟨0, 0, 1⟩ }

/-- Axial slice at z = 2 (projection key 2). -/
def sliceW2 : RawSlice :=
  { pixels := [[4]], rowDir := ⟨1, 0, 0⟩, colDir := ⟨0, 1, 0⟩, pos := ⟨0, 0, 2⟩ }

theorem C3_amended_assembly_order_witness :
    create_volume_stack [sliceW2, sliceW1] = create_volume_stack [sliceW1, sliceW2] :=
  (C3_amended_assembly_order [sliceW2, sliceW1] [sliceW1, sliceW2]
    (List.Perm.swap _ _ _)
    (by norm_num [projKey, dot, cross, normalVector, sliceW1, sliceW2])).1

/-- C9 (amended): a nonempty assembly fails with the insufficient-slices
`ValueError` exactly when fewer than 2 input slices share the pixel shape
of the *first slice in projection-sorted order* (not of just any two
slices: a matching pair that does not match the reference slice still
fails — see the counterexample). -/
theorem C9_amended_insufficient_slices (l : List RawSlice) (first : RawSlice)
    (rest : List RawSlice) (h : sortSlices l = first :: rest) :
    (create_volume_stack l = .error .insufficientSlices ↔
      l.countP (fun s => decide (npShape s.pixels = npShape first.pixels)) <
        MIN_SLICES_REQUIRED) := by
  unfold create_volume_stack assembleSlices
  rw [h]
  have hperm : (first :: rest).Perm l := by
    rw [← h]
    exact sortSlices_perm l
  have hcount : ((first :: rest).filter
      (fun s => decide (npShape s.pixels = npShape first.pixels))).length =
      l.countP (fun s => decide (npShape s.pixels = npShape first.pixels)) := by
    rw [← List.countP_eq_length_filter]
    exact hperm.countP_eq _
  rw [← hcount]
  by_cases hlen : ((first :: rest).filter
      (fun s => decide (npShape s.pixels = npShape first.pixels))).length <
      MIN_SLICES_REQUIRED
  · simp at hlen ⊢
    simp [Except.map, hlen]
  · simp at hlen ⊢
    have hlt := not_lt.mpr hlen
    rw [if_neg hlt]
    simp [Except.map, hlt]

/-- Slice of shape (1,1) at projection key 0. -/
def sliceSmall : RawSlice :=
  { pixels := [[0]], rowDir := ⟨1, 0, 0⟩, colDir := ⟨0, 1, 0⟩, pos := ⟨0, 0, 0⟩ }

/-- Slice of shape (2,2) at projection key 1. -/
def sliceBig1 : RawSlice :=
  { pixels := [[1, 2], [3, 4]], rowDir := ⟨1, 0, 0⟩, colDir := ⟨0, 1, 0⟩, pos := ⟨0, 0, 1⟩ }

/-- Slice of shape (2,2) at projection key 2. -/
def sliceBig2 : RawSlice :=
  { pixels := [[5, 6], [7, 8]], rowDir := ⟨1, 0, 0⟩, colDir := ⟨0, 1, 0⟩, pos := ⟨0, 0, 2⟩ }

theorem sortSlices_small_big :
    sortSlices [sliceSmall, sliceBig1, sliceBig2] =
      [sliceSmall, sliceBig1, sliceBig2] := by
  have h01 : sliceLE sliceSmall sliceBig1 = true := by
    norm_num [sliceLE, projKey, dot, cross, normalVector, sliceSmall, sliceBig1]
  have h02 : sliceLE sliceSmall sliceBig2 = true := by
    norm_num [sliceLE, projKey, dot, cross, normalVector, sliceSmall, sliceBig2]
  have h12 : sliceLE sliceBig1 sliceBig2 = true := by
    norm_num [sliceLE, projKey, dot, cross, normalVector, sliceBig1, sliceBig2]
  unfold sortSlices
  exact List.mergeSort_of_sorted (by simp [List.pairwise_cons, h01, h02, h12])

theorem C9_amended_insufficient_slices_witness :
    create_volume_stack [sliceSmall, sliceBig1, sliceBig2] =
        .error .insufficientSlices ↔
      [sliceSmall, sliceBig1, sliceBig2].countP
          (fun s => decide (npShape s.pixels = npShape sliceSmall.pixels)) <
        MIN_SLICES_REQUIRED :=
  C9_amended_insufficient_slices _ _ _ sortSlices_small_big

/-- C9 counterexample: two of the three input slices share an identical
pixel-buffer shape, yet assembly still fails with the insufficient-slices
error, because the reference shape is the first sorted slice's (1,1) —
refuting "with 2 or more slices sharing an identical shape it does not
raise this error." -/
theorem C9_counterexample :
    [sliceSmall, sliceBig1, sliceBig2].countP
        (fun s => decide (npShape s.pixels = npShape sliceBig1.pixels)) = 2 ∧
    create_volume_stack [sliceSmall, sliceBig1, sliceBig2] =
      .error .insufficientSlices := by
  constructor
  · simp [sliceSmall, sliceBig1, sliceBig2, npShape, List.countP_cons]
  · unfold create_volume_stack assembleSlices
    rw [sortSlices_small_big]
    simp [npShape, sliceSmall, sliceBig1, sliceBig2, MIN_SLICES_REQUIRED, Except.map]

/-- `src/extension/constants.py` line 43. -/
def MM3_TO_ML : ℚ := 1000

/-- `src/extension/measurements.py` lines 15-56: `calculate_tissue_volume`.
The boolean mask, its `np.sum` (count of `True`), the voxel volume
`pixel_spacing[0] * pixel_spacing[1] * slice_thickness`, and the division
by `MM3_TO_ML`. -/
def calculate_tissue_volume (vol : List ℚ) (hu_min hu_max : ℚ)
    (pixel_spacing : ℚ × ℚ) (slice_thickness : ℚ) : ℚ :=
  let mask := vol.map (fun v => decide (hu_min ≤ v) && decide (v ≤ hu_max))
  let voxel_count : ℚ := ((mask.count true : ℕ) : ℚ)
  let voxel_volume_mm3 := pixel_spacing.1 * pixel_spacing.2 * slice_thickness
  let total_volume_mm3 := voxel_count * voxel_volume_mm3
  total_volume_mm3 / MM3_TO_ML

/-- The volume formula exactly as the specification words it:
`count = Σ 1[hu_min ≤ v ≤ hu_max]`, `volume_mL = count * row_spacing *
col_spacing * slice_thickness / 1000`. -/
def tissueVolumeSpec (vol : List ℚ) (hu_min hu_max row_sp col_sp st : ℚ) : ℚ :=
  ((vol.filter (fun v => decide (hu_min ≤ v ∧ v ≤ hu_max))).length : ℚ) *
    row_sp * col_sp * st / 1000

theorem count_true_map_eq_countP (p : ℚ → Bool) (l : List ℚ) :
    (l.map p).count true = l.countP p := by
  induction l with
  | nil => rfl
  | cons x xs ih => simp [List.count_cons, List.countP_cons, ih]

/-- C8: `calculate_tissue_volume` is a pure function computing exactly
(number of voxels in `[hu_min, hu_max]`) × row_spacing × col_spacing ×
slice_thickness / 1000 millilitres. -/
theorem C8_tissue_volume_formula (vol : List ℚ) (hu_min hu_max : ℚ)
    (ps : ℚ × ℚ) (st : ℚ) (h1 : hu_min ≤ hu_max) (h2 : 0 < ps.1)
    (h3 : 0 < ps.2) (h4 : 0 < st) :
    calculate_tissue_volume vol hu_min hu_max ps st =
      tissueVolumeSpec vol hu_min hu_max ps.1 ps.2 st := by
  unfold calculate_tissue_volume tissueVolumeSpec MM3_TO_ML
  dsimp only
  rw [count_true_map_eq_countP, List.countP_eq_length_filter]
  have hpred : (fun v => decide (hu_min ≤ v) && decide (v ≤ hu_max)) =
      (fun v => decide (hu_min ≤ v ∧ v ≤ hu_max)) := by
    funext v
    by_cases ha : hu_min ≤ v <;> by_cases hb : v ≤ hu_max <;> simp [ha, hb]
  rw [hpred]
  ring

/-- C8 witness: the spec scenario — the estimator over an all-zero array
with `hu_min = 400`, `hu_max = 1000` matches the formula and returns
exactly `0.0` mL. -/
theorem C8_tissue_volume_formula_witness :
    calculate_tissue_volume [0, 0, 0] 400 1000 (7/10, 7/10) 1 =
      tissueVolumeSpec [0, 0, 0] 400 1000 (7/10) (7/10) 1 ∧
    calculate_tissue_volume [0, 0, 0] 400 1000 (7/10, 7/10) 1 = 0 := by
  constructor
  · exact C8_tissue_volume_formula [0, 0, 0] 400 1000 (7/10, 7/10) 1
      (by norm_num) (by norm_num) (by norm_num) (by norm_num)
  · norm_num [calculate_tissue_volume, MM3_TO_ML, List.count_cons]

/-- Header fields read by `classify_dicom_file` (`None` models a missing
attribute, the outer `Option` models `dcmread` raising). -/
structure DicomHeader where
  rows : Option ℤ := none
  cols : Option ℤ := none
  sopClassUID : Option String := none
  imageType : Option (List String) := none
deriving DecidableEq

/-- `src/extension/constants.py` line 49. -/
def SOP_CLASS_SECONDARY_CAPTURE : String := "1.2.840.10008.5.1.4.1.1.7"

/-- The four classification outcomes. -/
inductive FileClass where
  | primary : FileClass
  | secondary : FileClass
  | non_image : FileClass
  | invalid : FileClass
deriving DecidableEq

/-- `src/extension/dicom_io.py` lines 23-61: `classify_dicom_file`. -/
def classify_dicom_file : Option DicomHeader → FileClass
  | none => .invalid
  | some ds =>
    if ds.rows.isNone || ds.cols.isNone then .non_image
    else if ds.sopClassUID = some SOP_CLASS_SECONDARY_CAPTURE then .secondary
    else
      match ds.imageType with
      | some image_type =>
        if 1 < image_type.length then
          if image_type.getD 1 "" = "PRIMARY" then .primary
          else if image_type.getD 1 "" = "SECONDARY" then .secondary
          else if image_type.getD 0 "" = "DERIVED" then .secondary
          else .primary
        else .primary
      | none => .primary

/-- The classification policy exactly as the specification words it:
rows/columns absent → non_image; secondary-capture SOP class → secondary;
else on a multi-valued ImageType, second component PRIMARY → primary,
second component SECONDARY or first component DERIVED → secondary; absent
or inconclusive ImageType → primary; decode failure → invalid. -/
def classifySpec : Option DicomHeader → FileClass
  | none => .invalid
  | some ds =>
    if ds.rows.isNone || ds.cols.isNone then .non_image
    else if ds.sopClassUID = some SOP_CLASS_SECONDARY_CAPTURE then .secondary
    else
      match ds.imageType with
      | some (c0 :: c1 :: _) =>
        if c1 = "PRIMARY" then .primary
        else if c1 = "SECONDARY" ∨ c0 = "DERIVED" then .secondary
        else .primary
      | _ => .primary

/-- C6: `classify_dicom_file` is total (never raises), returns exactly the
four labels of the spec's decision tree, agrees with the spec's policy at
every header, and returns `invalid` exactly on decode failure. -/
theorem C6_classification_policy (r : Option DicomHeader) :
    classify_dicom_file r = classifySpec r ∧
    (classify_dicom_file r = .invalid ↔ r = none) := by
  cases r with
  | none => exact ⟨rfl, by simp [classify_dicom_file]⟩
  | some ds =>
    obtain ⟨rw, cl, sop, it⟩ := ds
    constructor
    · cases it with
      | none => rfl
      | some itl =>
        match itl with
        | [] => rfl
        | [c0] => rfl
        | c0 :: c1 :: rest =>
          simp only [classify_dicom_file, classifySpec, List.getD]
          split_ifs <;> simp_all
    · simp only [classify_dicom_file]
      constructor
      · intro hcon
        split_ifs at hcon <;> try simp_all
        split at hcon <;> (try split_ifs at hcon) <;> simp_all
      · intro hcon
        cases hcon

/-- Glob match for `"ct_volume_*.vdb"` (`src/extension/volume.py` line 14):
the name starts with `ct_volume_`, ends with `.vdb`, and is long enough for
the two fixed parts (`*` matches any, possibly empty, run).  File names are
character lists so the match is fully computable. -/
def tempVolumeGlobMatch (name : List Char) : Bool :=
  decide (name.take 10 = "ct_volume_".toList) &&
  decide (name.drop (name.length - 4) = ".vdb".toList) &&
  decide (14 ≤ name.length)

/-- `volume.py` lines 10-22 `clean_temp_dir`: the set of temp-dir files the
glob loop removes. -/
def clean_temp_dir_deletes (files : List (List Char)) : List (List Char) :=
  files.filter tempVolumeGlobMatch

/-- `volume.py` lines 10-22 `clean_temp_dir`: the temp-dir contents left
after the glob loop removed every match. -/
def clean_temp_dir_remaining (files : List (List Char)) : List (List Char) :=
  files.filter (fun n => !(tempVolumeGlobMatch n))

/-- `volume.py` line 148 / `volume_creation.py` line 377: the VDB grid file
name `ct_volume_{unique_id}.vdb`. -/
def vdbFileName (uid : List Char) : List Char :=
  "ct_volume_".toList ++ uid ++ ".vdb".toList

/-- `volume_creation.py` line 362: the raw-array cache file name
`ct_volume_{unique_id}.npy`. -/
def npyFileName (uid : List Char) : List Char :=
  "ct_volume_".toList ++ uid ++ ".npy".toList

/-- `volume.py` `create_volume` temp-dir effect: it calls `clean_temp_dir()`
as its first statement (line 26) and then writes one uniquely named VDB
file. -/
def volume_create_volume_tempfiles (files : List (List Char)) (uid : List Char) :
    List (List Char) :=
  clean_temp_dir_remaining files ++ [vdbFileName uid]

/-- `volume_creation.py` `create_volume` temp-dir effect: it deliberately
performs no temp-dir cleanup (lines 224-225; `clean_old_volumes` touches
only Blender objects keyed by the per-series name) and writes the raw-array
cache and the VDB grid under the fresh unique id. -/
def volume_creation_tempfiles (files : List (List Char)) (uid : List Char) :
    List (List Char) :=
  files ++ [npyFileName uid, vdbFileName uid]

/-- C10 (amended): the claim holds for `volume_creation.create_volume` —
it preserves every preexisting temp file (no wildcard delete), writes the
grid under `ct_volume_{uid}.vdb`, and distinct unique ids give distinct
file names — but not for `volume.create_volume`, whose first step is the
blanket wildcard delete `clean_temp_dir()` (see the counterexample). -/
theorem C10_amended_temp_file_safety (files : List (List Char)) (uid : List Char) :
    (∀ n ∈ files, n ∈ volume_creation_tempfiles files uid) ∧
    vdbFileName uid ∈ volume_creation_tempfiles files uid ∧
    (∀ uid2, vdbFileName uid = vdbFileName uid2 → uid = uid2) := by
  refine ⟨?_, ?_, ?_⟩
  · intro n hn
    exact List.mem_append_left _ hn
  · exact List.mem_append_right _ (by simp)
  · intro uid2 h
    unfold vdbFileName at h
    have h2 := List.append_cancel_right h
    exact List.append_cancel_left h2

theorem C10_amended_temp_file_safety_witness :
    vdbFileName "11111111".toList ∈
      volume_creation_tempfiles [vdbFileName "11111111".toList] "22222222".toList :=
  (C10_amended_temp_file_safety [vdbFileName "11111111".toList]
    "22222222".toList).1 (vdbFileName "11111111".toList) (by decide)

/-- C10 counterexample: `volume.create_volume` (the function
`operators.py` imports) *does* perform a blanket wildcard delete — its
first step removes another series' grid file `ct_volume_11111111.vdb`
while assembling a volume with unique id `22222222`, so that file is no
longer among the temp files afterwards. -/
theorem C10_counterexample :
    vdbFileName "11111111".toList ∈
      clean_temp_dir_deletes [vdbFileName "11111111".toList] ∧
    vdbFileName "11111111".toList ∉
      volume_create_volume_tempfiles [vdbFileName "11111111".toList]
        "22222222".toList := by
  decide

/-- One DICOM file header as read by `analyze_series_for_4d`
(`src/extension/dicom_io.py` lines 104-109): path, `SeriesInstanceUID`,
optional `AcquisitionNumber`, optional `InstanceNumber`. -/
structure DFile where
  path : String
  seriesUID : String
  acqNum : Option ℤ
  instNum : Option ℤ
deriving DecidableEq

/-- The dictionary key a file lands under in `files_by_acquisition`: its
acquisition number, or the synthetic acquisition `0` when the attribute is
absent (`dicom_io.py` lines 124-145). -/
def acqKey (f : DFile) : ℤ := f.acqNum.getD 0

/-- The Python sort key `x['instance_num'] if x['instance_num'] else 0`
(`dicom_io.py` line 203): `None` — and, by falsiness, `0` — map to `0`. -/
def instKey (f : DFile) : ℤ :=
  match f.instNum with
  | none => 0
  | some n => if n = 0 then 0 else n

/-- Association-list lookup (a Python `dict` read). -/
def alookup {κ β : Type} [DecidableEq κ] : List (κ × β) → κ → Option β
  | [], _ => none
  | (k, v) :: rest, key => if k = key then some v else alookup rest key

/-- Association-list in-place update of one existing key. -/
def aupdate {κ β : Type} [DecidableEq κ] (g : β → β) :
    List (κ × β) → κ → List (κ × β)
  | [], _ => []
  | (k, v) :: rest, key =>
    if k = key then (k, g v) :: rest else (k, v) :: aupdate g rest key

/-- Python `set.add` observed through iteration order: append if absent. -/
def insertNew (l : List ℤ) (a : ℤ) : List ℤ :=
  if a ∈ l then l else l ++ [a]

/-- Append a file to the `files_by_acquisition` list for its key, creating
the entry (at dict insertion order, i.e. the end) when absent. -/
def appendAtKey (m : List (ℤ × List DFile)) (k : ℤ) (f : DFile) :
    List (ℤ × List DFile) :=
  match m with
  | [] => [(k, [f])]
  | (k2, fs) :: rest =>
    if k2 = k then (k2, fs ++ [f]) :: rest else (k2, fs) :: appendAtKey rest k f

/-- Per-series accumulator of `analyze_series_for_4d`: the set of observed
acquisition numbers (insertion-ordered, only actual attribute values) and
the `files_by_acquisition` dictionary. -/
structure SeriesData where
  acqNumbers : List ℤ
  filesByAcq : List (ℤ × List DFile)
deriving DecidableEq

/-- The freshly initialized per-series entry (`dicom_io.py` lines 112-121). -/
def emptySeriesData : SeriesData := ⟨[], []⟩

/-- `dicom_io.py` lines 123-145: record one file in its series entry. -/
def addFileToSeries (d : SeriesData) (f : DFile) : SeriesData :=
  { acqNumbers :=
      match f.acqNum with
      | some a => insertNew d.acqNumbers a
      | none => d.acqNumbers,
    filesByAcq := appendAtKey d.filesByAcq (acqKey f) f }

/-- One iteration of the `for path in file_paths` loop of
`analyze_series_for_4d`: initialize the series entry when unseen, then add
the file. -/
def analyzeStep (acc : List (String × SeriesData)) (f : DFile) :
    List (String × SeriesData) :=
  match alookup acc f.seriesUID with
  | some _ => aupdate (fun d => addFileToSeries d f) acc f.seriesUID
  | none => acc ++ [(f.seriesUID, addFileToSeries emptySeriesData f)]

/-- `dicom_io.py` lines 90-156: `analyze_series_for_4d` (the grouping loop;
the final pass computes `is_4d` from `len(files_by_acquisition)`, modelled
by `SeriesData.is_4d`). -/
def analyze_series_for_4d (files : List DFile) : List (String × SeriesData) :=
  files.foldl analyzeStep []

/-- `dicom_io.py` lines 151-153: `is_4d = len(files_by_acquisition) > 1`. -/
def SeriesData.is_4d (d : SeriesData) : Bool := 1 < d.filesByAcq.length

/-- `sorted(...)` over acquisition numbers (`dicom_io.py` line 201). -/
def sortInts (l : List ℤ) : List ℤ := l.mergeSort (fun a b => decide (a ≤ b))

/-- `files_info.sort(key=...)` by instance number (`dicom_io.py` line 203):
Python's stable in-place sort. -/
def sortByInstance (fs : List DFile) : List DFile :=
  fs.mergeSort (fun a b => decide (instKey a ≤ instKey b))

/-- One `time_points` entry (`dicom_io.py` lines 205-209). -/
structure TimePoint where
  acquisition_number : ℤ
  files : List String
  slice_count : ℕ
deriving DecidableEq

/-- `dicom_io.py` lines 199-209: the `time_points` list built by
`organize_by_series` for a 4D series — one entry per sorted acquisition
number, holding that acquisition's files sorted by instance number. -/
def seriesTimePoints (d : SeriesData) : List TimePoint :=
  (sortInts d.acqNumbers).map (fun a =>
    let fi := sortByInstance ((alookup d.filesByAcq a).getD [])
    { acquisition_number := a, files := fi.map (fun f => f.path),
      slice_count := fi.length })

theorem alookup_aupdate_self {κ β : Type} [DecidableEq κ] (g : β → β)
    (l : List (κ × β)) (k : κ) :
    alookup (aupdate g l k) k = (alookup l k).map g := by
  induction l with
  | nil => rfl
  | cons kv rest ih =>
    obtain ⟨k2, v⟩ := kv
    by_cases h : k2 = k
    · subst h
      simp [aupdate, alookup]
    · simp [aupdate, alookup, h, ih]

theorem alookup_aupdate_other {κ β : Type} [DecidableEq κ] (g : β → β)
    (l : List (κ × β)) (k k3 : κ) (hne : k ≠ k3) :
    alookup (aupdate g l k) k3 = alookup l k3 := by
  induction l with
  | nil => rfl
  | cons kv rest ih =>
    obtain ⟨k2, v⟩ := kv
    by_cases h : k2 = k
    · subst h
      simp [aupdate, alookup, hne]
    · by_cases h3 : k2 = k3
      · subst h3
        simp [aupdate, alookup, h]
      · simp [aupdate, alookup, h, h3, ih]

theorem alookup_append_single_self {κ β : Type} [DecidableEq κ]
    (l : List (κ × β)) (k : κ) (v : β) (h : alookup l k = none) :
    alookup (l ++ [(k, v)]) k = some v := by
  induction l with
  | nil => simp [alookup]
  | cons kv rest ih =>
    obtain ⟨k2, v2⟩ := kv
    by_cases h2 : k2 = k
    · subst h2
      simp [alookup] at h
    · simp only [alookup, List.cons_append, if_neg h2] at h ⊢
      exact ih h

theorem alookup_append_single_other {κ β : Type} [DecidableEq κ]
    (l : List (κ × β)) (k k3 : κ) (v : β) (hne : k ≠ k3) :
    alookup (l ++ [(k, v)]) k3 = alookup l k3 := by
  induction l with
  | nil => simp [alookup, hne]
  | cons kv rest ih =>
    obtain ⟨k2, v2⟩ := kv
    by_cases h2 : k2 = k3
    · subst h2
      simp [alookup]
    · simp only [alookup, List.cons_append, if_neg h2]
      exact ih

theorem alookup_analyzeStep_self (acc : List (String × SeriesData)) (f : DFile) :
    alookup (analyzeStep acc f) f.seriesUID =
      some (addFileToSeries ((alookup acc f.seriesUID).getD emptySeriesData) f) := by
  unfold analyzeStep
  cases h : alookup acc f.seriesUID with
  | some d =>
    simp only [h]
    rw [alookup_aupdate_self, h]
    rfl
  | none =>
    simp only [h]
    rw [alookup_append_single_self _ _ _ h]
    rfl

theorem alookup_analyzeStep_other (acc : List (String × SeriesData)) (f : DFile)
    (uid : String) (hne : f.seriesUID ≠ uid) :
    alookup (analyzeStep acc f) uid = alookup acc uid := by
  unfold analyzeStep
  cases h : alookup acc f.seriesUID with
  | some d =>
    simp only [h]
    exact alookup_aupdate_other _ _ _ _ hne
  | none =>
    simp only [h]
    exact alookup_append_single_other _ _ _ _ hne

/-- The per-file action on one series' entry, as seen through `alookup`. -/
def seriesAccum (o : Option SeriesData) (f : DFile) : Option SeriesData :=
  some (addFileToSeries (o.getD emptySeriesData) f)

theorem analyze_lookup_eq (uid : String) (files : List DFile) :
    ∀ acc : List (String × SeriesData),
      alookup (files.foldl analyzeStep acc) uid =
        (files.filter (fun f => decide (f.seriesUID = uid))).foldl seriesAccum
          (alookup acc uid) := by
  induction files with
  | nil => intro acc; rfl
  | cons f fs ih =>
    intro acc
    by_cases hf : f.seriesUID = uid
    · rw [List.foldl_cons, ih, List.filter_cons_of_pos (by simp [hf]),
        List.foldl_cons]
      congr 1
      subst hf
      rw [alookup_analyzeStep_self]
      rfl
    · rw [List.foldl_cons, ih, List.filter_cons_of_neg (by simp [hf])]
      congr 1
      exact alookup_analyzeStep_other acc f uid hf

theorem keys_appendAtKey (m : List (ℤ × List DFile)) (k : ℤ) (f : DFile) :
    (appendAtKey m k f).map Prod.fst = insertNew (m.map Prod.fst) k := by
  induction m with
  | nil => simp [appendAtKey, insertNew]
  | cons kv rest ih =>
    obtain ⟨k2, fs⟩ := kv
    by_cases h : k2 = k
    · subst h
      simp [appendAtKey, insertNew]
    · have hks : k ≠ k2 := fun hh => h hh.symm
      by_cases hm : k ∈ rest.map Prod.fst
      · simp [appendAtKey, insertNew, h, ih, hm, hks]
      · simp [appendAtKey, insertNew, h, ih, hm, hks]

theorem nodup_insertNew (l : List ℤ) (a : ℤ) (h : l.Nodup) :
    (insertNew l a).Nodup := by
  unfold insertNew
  split_ifs with hm
  · exact h
  · simp [List.nodup_append, h, hm]

theorem toFinset_insertNew (l : List ℤ) (a : ℤ) :
    (insertNew l a).toFinset = insert a l.toFinset := by
  unfold insertNew
  split_ifs with hm
  · exact (Finset.insert_eq_self.mpr (List.mem_toFinset.mpr hm)).symm
  · ext x
    simp [or_comm]

theorem filesByAcq_fold_keys (fs : List DFile) : ∀ d : SeriesData,
    ((fs.foldl addFileToSeries d).filesByAcq.map Prod.fst).toFinset =
      (d.filesByAcq.map Prod.fst).toFinset ∪ (fs.map acqKey).toFinset := by
  induction fs with
  | nil => intro d; simp
  | cons f fs ih =>
    intro d
    rw [List.foldl_cons, ih]
    have h2 : ((addFileToSeries d f).filesByAcq.map Prod.fst).toFinset =
        insert (acqKey f) (d.filesByAcq.map Prod.fst).toFinset := by
      simp only [addFileToSeries]
      rw [keys_appendAtKey, toFinset_insertNew]
    rw [h2]
    ext x
    simp [or_assoc, or_comm, or_left_comm]

theorem filesByAcq_fold_nodup (fs : List DFile) : ∀ d : SeriesData,
    (d.filesByAcq.map Prod.fst).Nodup →
    ((fs.foldl addFileToSeries d).filesByAcq.map Prod.fst).Nodup := by
  induction fs with
  | nil => intro d h; exact h
  | cons f fs ih =>
    intro d h
    rw [List.foldl_cons]
    refine ih _ ?_
    simp only [addFileToSeries]
    rw [keys_appendAtKey]
    exact nodup_insertNew _ _ h

theorem foldl_seriesAccum_some (fs : List DFile) : ∀ d : SeriesData,
    fs.foldl seriesAccum (some d) = some (fs.foldl addFileToSeries d) := by
  induction fs with
  | nil => intro d; rfl
  | cons f fs ih =>
    intro d
    rw [List.foldl_cons, List.foldl_cons]
    have h : seriesAccum (some d) f = some (addFileToSeries d f) := rfl
    rw [h, ih]

theorem analyze_is4d_iff (files : List DFile) (uid : String) (d : SeriesData)
    (h : alookup (analyze_series_for_4d files) uid = some d) :
    (d.is_4d = true ↔
      1 < ((files.filter (fun f => decide (f.seriesUID = uid))).map acqKey).toFinset.card) := by
  unfold analyze_series_for_4d at h
  rw [analyze_lookup_eq uid files []] at h
  cases hf : files.filter (fun f => decide (f.seriesUID = uid)) with
  | nil =>
    rw [hf] at h
    cases h
  | cons f0 rest =>
    rw [hf] at h
    rw [List.foldl_cons] at h
    have h0 : seriesAccum (alookup ([] : List (String × SeriesData)) uid) f0 =
        some (addFileToSeries emptySeriesData f0) := rfl
    rw [h0, foldl_seriesAccum_some] at h
    have hd : d = rest.foldl addFileToSeries (addFileToSeries emptySeriesData f0) :=
      (Option.some.inj h).symm
    subst hd
    have hkeys := filesByAcq_fold_keys rest (addFileToSeries emptySeriesData f0)
    have hbase : ((addFileToSeries emptySeriesData f0).filesByAcq.map Prod.fst) =
        [acqKey f0] := by
      simp [addFileToSeries, emptySeriesData, appendAtKey]
    have hnd := filesByAcq_fold_nodup rest (addFileToSeries emptySeriesData f0)
      (by rw [hbase]; simp)
    have hcard : ((rest.foldl addFileToSeries
        (addFileToSeries emptySeriesData f0)).filesByAcq.map Prod.fst).toFinset.card =
        ((rest.foldl addFileToSeries
          (addFileToSeries emptySeriesData f0)).filesByAcq.map Prod.fst).length :=
      List.toFinset_card_of_nodup hnd
    have hlen : ((rest.foldl addFileToSeries
        (addFileToSeries emptySeriesData f0)).filesByAcq.map Prod.fst).length =
        (rest.foldl addFileToSeries
          (addFileToSeries emptySeriesData f0)).filesByAcq.length :=
      List.length_map _ _
    have hsets : ((rest.foldl addFileToSeries
        (addFileToSeries emptySeriesData f0)).filesByAcq.map Prod.fst).toFinset =
        ((f0 :: rest).map acqKey).toFinset := by
      rw [hkeys, hbase]
      ext x
      simp [or_comm]
    unfold SeriesData.is_4d
    rw [decide_eq_true_eq]
    rw [← hlen, ← hcard, hsets]

theorem analyze_no_acq_not4d (files : List DFile) (uid : String) (d : SeriesData)
    (h : alookup (analyze_series_for_4d files) uid = some d)
    (hnone : ∀ f ∈ files, f.seriesUID = uid → f.acqNum = none) :
    d.is_4d = false := by
  have hiff := analyze_is4d_iff files uid d h
  have hsub : ((files.filter (fun f => decide (f.seriesUID = uid))).map acqKey).toFinset ⊆
      ({0} : Finset ℤ) := by
    intro x hx
    rw [List.mem_toFinset] at hx
    obtain ⟨f, hf, rfl⟩ := List.mem_map.mp hx
    have hm := List.mem_filter.mp hf
    have hfn : f.acqNum = none := hnone f hm.1 (of_decide_eq_true hm.2)
    simp [acqKey, hfn]
  have hcard : ((files.filter (fun f => decide (f.seriesUID = uid))).map acqKey).toFinset.card ≤ 1 :=
    le_trans (Finset.card_le_card hsub) (by simp)
  cases hb : d.is_4d with
  | false => rfl
  | true =>
    have h1 := hiff.mp hb
    omega

/-- A 4D demo series `S`: six files carrying `AcquisitionNumber` values
`{1, 2, 3}`, two files each, listed with nonmonotonic instance numbers. -/
def demo4dFiles : List DFile :=
  [⟨"a2", "S", some 1, some 2⟩, ⟨"a1", "S", some 1, some 1⟩,
   ⟨"b2", "S", some 2, some 2⟩, ⟨"b1", "S", some 2, some 1⟩,
   ⟨"c1", "S", some 3, some 1⟩, ⟨"c2", "S", some 3, some 2⟩]

/-- The analysis entry of the demo 4D series. -/
def demo4dData : SeriesData :=
  (alookup (analyze_series_for_4d demo4dFiles) "S").getD emptySeriesData

/-- A demo series `T` with no `AcquisitionNumber` anywhere. -/
def demoNoAcqFiles : List DFile :=
  [⟨"p1", "T", none, some 1⟩, ⟨"p2", "T", none, some 2⟩]

/-- The analysis entry of the no-acquisition demo series. -/
def demoNoAcqData : SeriesData :=
  (alookup (analyze_series_for_4d demoNoAcqFiles) "T").getD emptySeriesData

theorem instLE_trans (a b c : DFile) (h1 : decide (instKey a ≤ instKey b) = true)
    (h2 : decide (instKey b ≤ instKey c) = true) :
    decide (instKey a ≤ instKey c) = true := by
  simp only [decide_eq_true_eq] at *
  exact le_trans h1 h2

theorem instLE_total (a b : DFile) :
    (decide (instKey a ≤ instKey b) || decide (instKey b ≤ instKey a)) = true := by
  simp only [Bool.or_eq_true, decide_eq_true_eq]
  exact le_total _ _

theorem sortByInstance_eq (fs L : List DFile) (hp : fs.Perm L)
    (hs : L.Pairwise (fun a b => instKey a ≤ instKey b))
    (hnd : (fs.map instKey).Nodup) : sortByInstance fs = L := by
  refine sorted_perm_nodup_eq instKey (sortByInstance fs) L
    ((List.mergeSort_perm fs _).trans hp) ?_ hs ?_
  · have h := List.sorted_mergeSort instLE_trans instLE_total fs
    exact h.imp (fun hab => by simpa using hab)
  · exact (((List.mergeSort_perm fs _).map instKey).nodup_iff).mpr hnd

theorem demo4d_timePoints :
    seriesTimePoints demo4dData =
      [⟨1, ["a1", "a2"], 2⟩, ⟨2, ["b1", "b2"], 2⟩, ⟨3, ["c1", "c2"], 2⟩] := by
  have hacqList : demo4dData.acqNumbers = [1, 2, 3] := by decide
  have hacq : sortInts demo4dData.acqNumbers = [1, 2, 3] := by
    rw [hacqList]
    unfold sortInts
    refine List.mergeSort_of_sorted ?_
    simp [List.pairwise_cons]
  have hl1 : (alookup demo4dData.filesByAcq 1).getD [] =
      [⟨"a2", "S", some 1, some 2⟩, ⟨"a1", "S", some 1, some 1⟩] := by decide
  have hl2 : (alookup demo4dData.filesByAcq 2).getD [] =
      [⟨"b2", "S", some 2, some 2⟩, ⟨"b1", "S", some 2, some 1⟩] := by decide
  have hl3 : (alookup demo4dData.filesByAcq 3).getD [] =
      [⟨"c1", "S", some 3, some 1⟩, ⟨"c2", "S", some 3, some 2⟩] := by decide
  have hs1 : sortByInstance [⟨"a2", "S", some 1, some 2⟩, ⟨"a1", "S", some 1, some 1⟩] =
      [⟨"a1", "S", some 1, some 1⟩, ⟨"a2", "S", some 1, some 2⟩] :=
    sortByInstance_eq _ _ (List.Perm.swap _ _ _)
      (by simp [List.pairwise_cons]; norm_num [instKey]) (by decide)
  have hs2 : sortByInstance [⟨"b2", "S", some 2, some 2⟩, ⟨"b1", "S", some 2, some 1⟩] =
      [⟨"b1", "S", some 2, some 1⟩, ⟨"b2", "S", some 2, some 2⟩] :=
    sortByInstance_eq _ _ (List.Perm.swap _ _ _)
      (by simp [List.pairwise_cons]; norm_num [instKey]) (by decide)
  have hs3 : sortByInstance [⟨"c1", "S", some 3, some 1⟩, ⟨"c2", "S", some 3, some 2⟩] =
      [⟨"c1", "S", some 3, some 1⟩, ⟨"c2", "S", some 3, some 2⟩] :=
    sortByInstance_eq _ _ (List.Perm.refl _)
      (by simp [List.pairwise_cons]; norm_num [instKey]) (by decide)
  unfold seriesTimePoints
  rw [hacq]
  simp only [List.map_cons, List.map_nil]
  rw [hl1, hs1, hl2, hs2, hl3, hs3]
  rfl

/-- C5: a series entry produced by `analyze_series_for_4d` is flagged
`is_4d` iff its files carry more than one distinct acquisition number,
with files lacking the attribute pooled under the synthetic acquisition 0;
a series whose files carry no acquisition number at all is not 4D; and the
demo series with acquisition numbers {1,2,3} is 4D with exactly 3 time
points, each listing only the files of that acquisition sorted by instance
number. -/
theorem C5_4d_detection :
    (∀ (files : List DFile) (uid : String) (d : SeriesData),
      alookup (analyze_series_for_4d files) uid = some d →
      (d.is_4d = true ↔
        1 < ((files.filter (fun f => decide (f.seriesUID = uid))).map acqKey).toFinset.card)) ∧
    (∀ (files : List DFile) (uid : String) (d : SeriesData),
      alookup (analyze_series_for_4d files) uid = some d →
      (∀ f ∈ files, f.seriesUID = uid → f.acqNum = none) → d.is_4d = false) ∧
    demo4dData.is_4d = true ∧
    seriesTimePoints demo4dData =
      [⟨1, ["a1", "a2"], 2⟩, ⟨2, ["b1", "b2"], 2⟩, ⟨3, ["c1", "c2"], 2⟩] :=
  ⟨analyze_is4d_iff, analyze_no_acq_not4d, by decide, demo4d_timePoints⟩

/-- C5 witness: the general 4D criterion and the no-acquisition rule
applied to the two demo series. -/
theorem C5_4d_detection_witness :
    (demo4dData.is_4d = true ↔
      1 < ((demo4dFiles.filter (fun f => decide (f.seriesUID = "S"))).map acqKey).toFinset.card) ∧
    demoNoAcqData.is_4d = false :=
  ⟨C5_4d_detection.1 demo4dFiles "S" demo4dData (by decide),
   C5_4d_detection.2.1 demoNoAcqFiles "T" demoNoAcqData (by decide)
     (by decide)⟩
